import Mathlib

/-! ChartComponent: a shallow embedding of `frontend/src/components/ChartComponent.js`.

The React component is embedded as explicit state passing.

* JavaScript numbers coming out of `JSON.parse` are finite, so prices and epochs are
  rationals (`ℚ`): `<`, `>` and `Math.floor` are exact on them.
* The eight `useState` cells form the record `State`; the objects the component only
  holds references to (the chart, its candlestick series, the sockets) are recorded with
  the calls made on them.
* Every handler and every effect body is one Lean function named after the source; the
  functions `mount`, `commitSelection`, `commitChartData`, `step` compose them the way React
  schedules them (an effect runs after a commit in which one of its dependencies changed,
  after the cleanup its previous run returned).
-/

namespace ChartComponent

/-! ## Data model -/

/-- A candle as stored in `chartData` (lines 56-62). -/
structure Candle where
  time : Int
  open_ : ℚ
  high : ℚ
  low : ℚ
  close : ℚ
deriving DecidableEq

/-- A record of the `candles` array of a feed response. -/
structure FeedRecord where
  epoch : ℚ
  open_ : ℚ
  high : ℚ
  low : ℚ
  close : ℚ
deriving DecidableEq

/-- A marker object as pushed onto `newMarkers` (lines 155-161, 165-171). -/
structure Marker where
  time : Int
  position : String
  color : String
  shape : String
  text : String
deriving DecidableEq

/-- The `error` object of a feed response. -/
structure FeedError where
  message : String
deriving DecidableEq

/-- A parsed feed response: `candles` and `error` are each present or absent.  A present
`candles` is an array, a present `error` an object, so both are truthy when present. -/
structure Response where
  candles : Option (List FeedRecord)
  error : Option FeedError
deriving DecidableEq

/-- The object passed to `JSON.stringify` in `socket.onopen` (lines 40-46). -/
structure Request where
  ticks_history : String
  granularity : Int
  style : String
  end_ : String
  count : Nat
deriving DecidableEq

/-- The argument of `chart.applyOptions` (line 190). -/
structure ChartOptions where
  width : Int
  height : Int
deriving DecidableEq

/-! ## Marker derivation (lines 149-175) -/

/-- The marker pushed when `buySignal` holds (lines 155-161). -/
def buyMarker (candle : Candle) : Marker :=
  { time := candle.time, position := "belowBar", color := "blue", shape := "arrowUp",
    text := "Buy" }

/-- The marker pushed when `sellSignal` holds (lines 165-171). -/
def sellMarker (candle : Candle) : Marker :=
  { time := candle.time, position := "aboveBar", color := "red", shape := "arrowDown",
    text := "Sell" }

/-- Line 151: `index > 0 && candle.close < chartData[index - 1].close`.  The lookup is only
evaluated when `index > 0`; inside `forEach` it is then always in range. -/
def buySignal (chartData : List Candle) (candle : Candle) (index : Nat) : Bool :=
  decide (index > 0) &&
    (match chartData[index - 1]? with
     | some prev => decide (candle.close < prev.close)
     | none => false)

/-- Line 152: `index > 0 && candle.close > chartData[index - 1].close`. -/
def sellSignal (chartData : List Candle) (candle : Candle) (index : Nat) : Bool :=
  decide (index > 0) &&
    (match chartData[index - 1]? with
     | some prev => decide (candle.close > prev.close)
     | none => false)

/-- The callback of `chartData.forEach` (lines 150-173), as a function of the array
`newMarkers` it pushes onto. -/
def forEachBody (chartData : List Candle) (newMarkers : List Marker) (candle : Candle)
    (index : Nat) : List Marker :=
  let afterBuy :=
    if buySignal chartData candle index then newMarkers ++ [buyMarker candle] else newMarkers
  if sellSignal chartData candle index then afterBuy ++ [sellMarker candle] else afterBuy

/-- Lines 149-173: `newMarkers` after `chartData.forEach` has run. -/
def newMarkers (chartData : List Candle) : List Marker :=
  chartData.enum.foldl (fun acc p => forEachBody chartData acc p.2 p.1) []

/-! ## Reference derivation of the markers, following the specification -/

/-- The three fields of a marker the specification speaks about. -/
structure MarkerView where
  time : Int
  position : String
  text : String
deriving DecidableEq

/-- Projection of a marker onto the fields of the specification. -/
def Marker.view (m : Marker) : MarkerView :=
  { time := m.time, position := m.position, text := m.text }

/-- Reference: what candle `i` contributes, in the words of the specification: one Buy
marker below the bar when the close decreased, one Sell marker above the bar when it
increased, nothing when it is equal. -/
def specContribution (chartData : List Candle) (i : Nat) : List MarkerView :=
  match chartData[i]?, chartData[i - 1]? with
  | some cur, some prev =>
    if cur.close < prev.close then [{ time := cur.time, position := "belowBar", text := "Buy" }]
    else if cur.close > prev.close then
      [{ time := cur.time, position := "aboveBar", text := "Sell" }]
    else []
  | _, _ => []

/-- Reference: the contributions of the indices `1 .. n-1`, in order. -/
def specMarkers (chartData : List Candle) : List MarkerView :=
  (List.range' 1 (chartData.length - 1)).flatMap (specContribution chartData)

/-- What one iteration of the loop pushes. -/
def pushed (chartData : List Candle) (candle : Candle) (index : Nat) : List Marker :=
  forEachBody chartData [] candle index

/-- What index `i` of the array pushes, when that index exists. -/
def pushedAt (chartData : List Candle) (i : Nat) : List Marker :=
  match chartData[i]? with
  | some candle => pushed chartData candle i
  | none => []

/-! ## Component state and the objects it refers to -/

/-- The chart object returned by `createChart`: the calls made on it. -/
structure Chart where
  applyOptionsCalls : List ChartOptions
  removed : Bool
deriving DecidableEq

/-- The series object returned by `addCandlestickSeries`: the calls made on it. -/
structure Series where
  setDataCalls : List (List Candle)
  setMarkersCalls : List (List Marker)
deriving DecidableEq

/-- A `WebSocket` created by `fetchChartData`: the selection its `onopen` closure captured,
the requests sent on it, and whether `close()` was called on it. -/
structure Socket where
  volatility : String
  granularity : Int
  sent : List Request
  closed : Bool
deriving DecidableEq

/-- The `useState` cells of the component (lines 6-13), followed by the sockets created so
far and the cleanup React holds for the fetch effect (the index of the socket it would
close). -/
structure State where
  chartData : List Candle
  volatility : String
  granularity : Int
  error : Option String
  loading : Bool
  chart : Option Chart
  candlestickSeries : Option Series
  markers : List Marker
  sockets : List Socket
  fetchCleanup : Option Nat
deriving DecidableEq

/-- The initial values of the `useState` cells (lines 6-13); no socket exists yet. -/
def initialState : State :=
  { chartData := [], volatility := "R_100", granularity := 60, error := none,
    loading := false, chart := none, candlestickSeries := none, markers := [],
    sockets := [], fetchCleanup := none }

/-- What the component renders (lines 198-229). -/
inductive View where
  | loading
  | error (message : String)
  | chart
deriving DecidableEq

/-- Lines 198-229: `if (loading)`, then `if (error)` (a string is truthy when it is not
empty), then the dropdowns and the chart container. -/
def render (s : State) : View :=
  if s.loading then View.loading
  else
    match s.error with
    | some message => if message ≠ "" then View.error message else View.chart
    | none => View.chart

/-! ## Feed client (lines 33-86) -/

/-- Lines 40-46: the request object built from the selection. -/
def request (volatility : String) (granularity : Int) : Request :=
  { ticks_history := volatility, granularity := granularity, style := "candles",
    end_ := "latest", count := 100 }

/-- Lines 33-81: `setLoading(true)`, create the socket and install its handlers.  Returns
the new state and the cleanup closure, given as the index of the socket it closes. -/
def fetchChartData (s : State) : State × Nat :=
  ({ s with
      loading := true
      sockets := s.sockets ++
        [{ volatility := s.volatility, granularity := s.granularity, sent := [],
           closed := false }] },
   s.sockets.length)

/-- Lines 84-86: the body of the fetch effect is the block `{ fetchChartData(); }`: the
value `fetchChartData` returns is dropped and the effect itself returns `undefined`, so
no cleanup is handed to React. -/
def fetchEffect (s : State) : State × Option Nat :=
  ((fetchChartData s).1, none)

/-- Lines 77-80: `socket.close()` on socket `i`. -/
def closeSocket (s : State) (i : Nat) : State :=
  { s with sockets := s.sockets.modify (fun k => { k with closed := true }) i }

/-- React runs the cleanup the fetch effect returned last time, when there is one. -/
def runFetchCleanup (s : State) : State :=
  match s.fetchCleanup with
  | some i => closeSocket s i
  | none => s

/-- React re-runs the fetch effect: first the previous cleanup, then the effect, whose
return value becomes the next cleanup. -/
def runFetchEffect (s : State) : State :=
  let r := fetchEffect (runFetchCleanup s)
  { r.1 with fetchCleanup := r.2 }

/-- Lines 37-48: `socket.onopen` of socket `i` sends the request for the selection the
socket was created for. -/
def onopen (s : State) (i : Nat) : State :=
  { s with
      sockets := s.sockets.modify
        (fun k => { k with sent := k.sent ++ [request k.volatility k.granularity] }) i }

/-- Lines 56-62: the mapping of one feed record. -/
def mapCandle (candle : FeedRecord) : Candle :=
  { time := Rat.floor candle.epoch, open_ := candle.open_, high := candle.high,
    low := candle.low, close := candle.close }

/-- Lines 51-67: `socket.onmessage`, applied to the parsed response. -/
def onmessage (s : State) (response : Response) : State :=
  let s1 := { s with loading := false }
  match response.candles with
  | some candles => { s1 with chartData := candles.map mapCandle }
  | none =>
    match response.error with
    | some error => { s1 with error := some error.message }
    | none => s1

/-- Lines 70-74: `socket.onerror`; `message` is the `message` property of the event as
it is rendered by the string concatenation. -/
def onerror (s : State) (message : String) : State :=
  { s with loading := false, error := some ("WebSocket error: " ++ message) }

/-- Line 89: `setVolatility(e.target.value)`. -/
def handleVolatilityChange (s : State) (value : String) : State :=
  { s with volatility := value }

/-- Line 93: `setGranularity(parseInt(e.target.value))`; `value` is the parsed integer. -/
def handleGranularityChange (s : State) (value : Int) : State :=
  { s with granularity := value }

/-! ## Chart surface (lines 96-196) -/

/-- Lines 97-132: the body of the chart initialisation effect; `chartContainer` tells
whether `document.getElementById('chart')` found the container. -/
def chartInitEffect (s : State) (chartContainer : Bool) : State :=
  if chartContainer && s.chart.isNone then
    { s with
        chart := some { applyOptionsCalls := [], removed := false }
        candlestickSeries := some { setDataCalls := [], setMarkersCalls := [] } }
  else s

/-- Lines 142-177: the chart update effect.  `setMarkers([])` and `setMarkers(newMarkers)`
are two updates of the same cell in one pass. -/
def chartUpdateEffect (s : State) : State :=
  match s.candlestickSeries with
  | some series =>
    if s.chartData.length > 0 then
      let s1 := { s with
        candlestickSeries :=
          some { series with setDataCalls := series.setDataCalls ++ [s.chartData] } }
      let s2 := { s1 with markers := [] }
      { s2 with markers := newMarkers s.chartData }
    else s
  | none => s

/-- Lines 180-184: the markers effect. -/
def markersEffect (s : State) : State :=
  match s.candlestickSeries with
  | some series =>
    if s.markers.length > 0 then
      { s with
          candlestickSeries :=
            some { series with setMarkersCalls := series.setMarkersCalls ++ [s.markers] } }
    else s
  | none => s

/-- Lines 188-192: `handleResize`, with `window.innerWidth` as argument. -/
def handleResize (s : State) (innerWidth : Int) : State :=
  match s.chart with
  | some chart =>
    { s with
        chart := some { chart with
          applyOptionsCalls := chart.applyOptionsCalls ++ [{ width := innerWidth, height := 500 }] } }
  | none => s

/-- Lines 134-138: the cleanup of the chart initialisation effect, `chart.remove()`. -/
def chartCleanup (s : State) : State :=
  { s with chart := s.chart.map (fun c => { c with removed := true }) }

/-! ## Scheduling of the effects -/

/-- Mounting: the first render shows the chart container (`loading` is false), then the
effects run in source order on the rendered values: the fetch effect, the chart
initialisation (the update and marker effects see no series yet).  The commit that follows
re-runs the effects depending on `chart` and `candlestickSeries`. -/
def mount : State :=
  let s1 := runFetchEffect initialState
  let s2 := chartInitEffect s1 (decide (render initialState = View.chart))
  let s3 := chartInitEffect s2 (decide (render s2 = View.chart))
  markersEffect (chartUpdateEffect s3)

/-- The commit after a selection handler: `fetchChartData` is a new callback exactly when
`volatility` or `granularity` changed, and then the fetch effect re-runs. -/
def commitSelection (old new : State) : State :=
  if new.volatility = old.volatility ∧ new.granularity = old.granularity then new
  else runFetchEffect new

/-- A change of the instrument dropdown followed by the commit. -/
def selectVolatility (s : State) (value : String) : State :=
  commitSelection s (handleVolatilityChange s value)

/-- A change of the timeframe dropdown followed by the commit. -/
def selectGranularity (s : State) (value : Int) : State :=
  commitSelection s (handleGranularityChange s value)

/-- The commit after `setChartData(candles)`: the chart update effect runs, and when its
guard passed `markers` is a new array, so the markers effect runs next. -/
def commitChartData (s : State) : State :=
  if s.candlestickSeries.isSome && decide (s.chartData.length > 0) then
    markersEffect (chartUpdateEffect s)
  else chartUpdateEffect s

/-- A message event: `onmessage`, followed by the commit of the new candle array when the
response carried one. -/
def receive (s : State) (response : Response) : State :=
  if response.candles.isSome then commitChartData (onmessage s response)
  else onmessage s response

/-- Unmounting runs the cleanups React holds: the one of the fetch effect, if any, and
`chart.remove()`. -/
def unmount (s : State) : State :=
  chartCleanup (runFetchCleanup s)

/-- The events the mounted component reacts to. -/
inductive Event where
  | socketOpen (socket : Nat)
  | socketMessage (socket : Nat) (response : Response)
  | socketError (socket : Nat) (message : String)
  | changeVolatility (value : String)
  | changeGranularity (value : Int)
  | resize (innerWidth : Int)
deriving DecidableEq

/-- Whether socket `i` exists and `close()` was not called on it. -/
def isOpen (s : State) (i : Nat) : Bool :=
  match s.sockets[i]? with
  | some k => !k.closed
  | none => false

/-- One event.  A socket delivers events only while it is not closed; the dropdowns exist
only while the chart view is rendered. -/
def step (s : State) : Event → State
  | Event.socketOpen i => if isOpen s i then onopen s i else s
  | Event.socketMessage i response => if isOpen s i then receive s response else s
  | Event.socketError i message => if isOpen s i then onerror s message else s
  | Event.changeVolatility value =>
    if render s = View.chart then selectVolatility s value else s
  | Event.changeGranularity value =>
    if render s = View.chart then selectGranularity s value else s
  | Event.resize innerWidth => handleResize s innerWidth

/-- The state after mounting and a sequence of events. -/
def run (events : List Event) : State :=
  events.foldl step mount

/-- Number of sockets on which `close()` was not called. -/
def openConnections (s : State) : Nat :=
  (s.sockets.filter (fun k => !k.closed)).length

/-- The argument of the last `setMarkers` call on the series, if there was one. -/
def lastSetMarkers (s : State) : Option (List Marker) :=
  match s.candlestickSeries with
  | some series => series.setMarkersCalls.getLast?
  | none => none

/-- What holds in every state reached from `mount`: the chart and the series exist, React
holds no cleanup for the fetch effect, and `close()` was called on no socket. -/
def Inv (s : State) : Prop :=
  s.chart.isSome = true ∧ s.candlestickSeries.isSome = true ∧ s.fetchCleanup = none ∧
  ∀ k ∈ s.sockets, k.closed = false

/-- What holds in every state reached from `mount`: while a non-empty error is set,
`loading` is false (both error handlers end loading, and loading is re-entered only by a
selection change, which needs the chart view). -/
def ErrorInv (s : State) : Prop :=
  ∀ message, s.error = some message → message ≠ "" → s.loading = false

/-- Lines 198-229: the two `<select>` elements belong to the last `return` only; the
loading and the error view do not contain them. -/
def dropdownsRendered (s : State) : Bool :=
  decide (render s = View.chart)

/-! ## Concrete inputs used to instantiate the theorems -/

/-- A feed record with the given epoch and close. -/
def sampleRecord (epoch close : ℚ) : FeedRecord :=
  { epoch := epoch, open_ := close, high := close, low := close, close := close }

/-- A response carrying two candles, the second closing higher. -/
def risingResponse : Response :=
  { candles := some [sampleRecord 60 1, sampleRecord (mkRat 241 2) 2], error := none }

/-- A response carrying a single candle. -/
def singleResponse : Response :=
  { candles := some [sampleRecord 180 5], error := none }

/-- A response carrying an empty candle array. -/
def emptyResponse : Response :=
  { candles := some [], error := none }

/-- A response carrying an error only. -/
def errorResponse : Response :=
  { candles := none, error := some { message := "InvalidSymbol" } }

/-- A response carrying both a candle array and an error. -/
def mixedResponse : Response :=
  { candles := some [sampleRecord 60 1], error := some { message := "InvalidSymbol" } }

/-- A response carrying one hundred candles. -/
def hundredResponse : Response :=
  { candles := some ((List.range 100).map (fun i => sampleRecord (60 * i) i)), error := none }

/-- The state after mounting, the opening of the socket and a response with two candles. -/
def risingState : State :=
  run [Event.socketOpen 0, Event.socketMessage 0 risingResponse]

/-- Mount, a response with two candles, then a change of the instrument. -/
def selectionTrace : List Event :=
  [Event.socketOpen 0, Event.socketMessage 0 risingResponse, Event.changeVolatility "R_75"]

/-- Mount, a response with two candles, then a response with a single candle. -/
def replaceTrace : List Event :=
  [Event.socketOpen 0, Event.socketMessage 0 risingResponse,
   Event.socketMessage 0 singleResponse]

/-- Mount, the opening of the socket, then an error-only response. -/
def errorTrace : List Event :=
  [Event.socketOpen 0, Event.socketMessage 0 errorResponse]

/-- The series object in `risingState`: one `setData` call and one `setMarkers` call. -/
def risingSeries : Series :=
  { setDataCalls := [risingState.chartData], setMarkersCalls := [risingState.markers] }

/-! ## Lemmas on the marker derivation -/

theorem forEachBody_eq_append (chartData : List Candle) (acc : List Marker) (candle : Candle)
    (index : Nat) :
    forEachBody chartData acc candle index = acc ++ pushed chartData candle index := by
  unfold pushed forEachBody
  by_cases hb : buySignal chartData candle index = true <;>
    by_cases hs : sellSignal chartData candle index = true <;> simp [hb, hs]

theorem foldl_forEachBody (chartData : List Candle) (l : List (Nat × Candle))
    (acc : List Marker) :
    l.foldl (fun acc p => forEachBody chartData acc p.2 p.1) acc
      = acc ++ l.flatMap (fun p => pushed chartData p.2 p.1) := by
  induction l generalizing acc with
  | nil => simp
  | cons p l ih =>
    rw [List.foldl_cons, ih, forEachBody_eq_append]
    simp [List.flatMap, List.append_assoc]

theorem flatMap_enumFrom {α β : Type} (g : Nat → α → List β) (l : List α) (k : Nat) :
    (l.enumFrom k).flatMap (fun p => g p.1 p.2)
      = (List.range' k l.length).flatMap
          (fun i => match l[i - k]? with | some a => g i a | none => []) := by
  induction l generalizing k with
  | nil => simp
  | cons a l ih =>
    rw [List.enumFrom_cons, List.length_cons, List.range'_succ]
    simp only [List.flatMap_cons, Nat.sub_self, List.getElem?_cons_zero]
    rw [ih (k + 1)]
    congr 1
    apply List.flatMap_congr
    intro i hi
    have hk : k + 1 ≤ i := (List.mem_range'_1.mp hi).1
    have : i - k = (i - (k + 1)) + 1 := by omega
    rw [this, List.getElem?_cons_succ]

theorem newMarkers_eq_flatMap (chartData : List Candle) :
    newMarkers chartData
      = (List.range' 0 chartData.length).flatMap (pushedAt chartData) := by
  unfold newMarkers
  rw [foldl_forEachBody, List.nil_append, List.enum]
  have h := flatMap_enumFrom (fun i c => pushed chartData c i) chartData 0
  simp only [Nat.sub_zero] at h
  rw [h]
  apply List.flatMap_congr
  intro i _
  unfold pushedAt
  cases chartData[i]? <;> rfl

theorem pushed_zero (chartData : List Candle) (candle : Candle) :
    pushed chartData candle 0 = [] := by
  simp [pushed, forEachBody, buySignal, sellSignal]

theorem pushedAt_zero (chartData : List Candle) : pushedAt chartData 0 = [] := by
  unfold pushedAt
  cases chartData[0]? <;> simp [pushed_zero]

theorem newMarkers_eq_flatMap_tail (chartData : List Candle) :
    newMarkers chartData
      = (List.range' 1 (chartData.length - 1)).flatMap (pushedAt chartData) := by
  rw [newMarkers_eq_flatMap]
  cases h : chartData.length with
  | zero => simp
  | succ n =>
    rw [List.range'_succ]
    simp [pushedAt_zero]

/-- What an iteration at `index > 0` pushes, by the sign of the close delta. -/
theorem pushed_cases (chartData : List Candle) (candle prev : Candle) (index : Nat)
    (h0 : 0 < index) (hp : chartData[index - 1]? = some prev) :
    pushed chartData candle index
      = if candle.close < prev.close then [buyMarker candle]
        else if candle.close > prev.close then [sellMarker candle]
        else [] := by
  unfold pushed forEachBody buySignal sellSignal
  rw [hp]
  by_cases h1 : candle.close < prev.close
  · have h2 : ¬ candle.close > prev.close := not_lt.mpr (le_of_lt h1)
    simp [h0, h1, h2]
  · by_cases h2 : candle.close > prev.close <;> simp [h0, h1, h2]

theorem pushedAt_view (chartData : List Candle) (i : Nat) :
    (pushedAt chartData i).map Marker.view = specContribution chartData i := by
  unfold pushedAt specContribution
  cases hc : chartData[i]? with
  | none => simp
  | some cur =>
    rcases Nat.eq_zero_or_pos i with h0 | h0
    · subst h0
      simp only [Nat.zero_sub, hc, pushed_zero, List.map_nil]
      simp
    · cases hp : chartData[i - 1]? with
      | none => simp [pushed, forEachBody, buySignal, sellSignal, hp]
      | some prev =>
        simp only [pushed_cases chartData cur prev i h0 hp]
        by_cases h1 : cur.close < prev.close
        · simp [h1, buyMarker, Marker.view]
        · by_cases h2 : cur.close > prev.close <;>
            simp [h1, h2, sellMarker, Marker.view]

theorem newMarkers_view (chartData : List Candle) :
    (newMarkers chartData).map Marker.view = specMarkers chartData := by
  rw [newMarkers_eq_flatMap_tail, List.map_flatMap, specMarkers]
  apply List.flatMap_congr
  intro i _
  exact pushedAt_view chartData i

theorem flatMap_sublist {α β : Type} (l : List α) (f g : α → List β)
    (h : ∀ a ∈ l, (f a).Sublist (g a)) : (l.flatMap f).Sublist (l.flatMap g) := by
  induction l with
  | nil => simp
  | cons a l ih =>
    simp only [List.flatMap_cons]
    exact List.Sublist.append (h a (List.mem_cons_self a l))
      (ih (fun b hb => h b (List.mem_cons_of_mem a hb)))

theorem flatMap_enumFrom_singleton {α β : Type} (f : α → β) (l : List α) (k : Nat) :
    (l.enumFrom k).flatMap (fun p => [f p.2]) = l.map f := by
  induction l generalizing k with
  | nil => simp
  | cons a l ih =>
    rw [List.enumFrom_cons, List.flatMap_cons, ih (k + 1)]
    simp

theorem map_eq_flatMap_range' {α β : Type} (f : α → β) (l : List α) (k : Nat) :
    l.map f
      = (List.range' k l.length).flatMap
          (fun i => match l[i - k]? with | some a => [f a] | none => []) := by
  rw [← flatMap_enumFrom_singleton f l k]
  exact flatMap_enumFrom (fun _ a => [f a]) l k

theorem pushedAt_time_sublist (chartData : List Candle) (i : Nat) :
    ((pushedAt chartData i).map Marker.time).Sublist
      (match chartData[i]? with | some c => [c.time] | none => []) := by
  unfold pushedAt
  cases hc : chartData[i]? with
  | none => simp
  | some cur =>
    rcases Nat.eq_zero_or_pos i with h0 | h0
    · subst h0
      simp [pushed_zero]
    · cases hp : chartData[i - 1]? with
      | none => simp [pushed, forEachBody, buySignal, sellSignal, hp]
      | some prev =>
        simp only [pushed_cases chartData cur prev i h0 hp]
        by_cases h1 : cur.close < prev.close
        · simp [h1, buyMarker]
        · by_cases h2 : cur.close > prev.close <;> simp [h1, h2, sellMarker]

theorem newMarkers_times_sublist (chartData : List Candle) :
    ((newMarkers chartData).map Marker.time).Sublist (chartData.tail.map Candle.time) := by
  rw [newMarkers_eq_flatMap_tail, List.map_flatMap,
    map_eq_flatMap_range' Candle.time chartData.tail 1, List.length_tail]
  apply flatMap_sublist
  intro i hi
  have h1 : 1 ≤ i := (List.mem_range'_1.mp hi).1
  have ht : chartData.tail[i - 1]? = chartData[i]? := by
    rw [List.getElem?_tail]
    congr 1
    omega
  rw [ht]
  have h := pushedAt_time_sublist chartData i
  cases hc : chartData[i]? with
  | none => simpa [hc] using h
  | some c => simpa [hc] using h

theorem newMarkers_length_le (chartData : List Candle) :
    (newMarkers chartData).length ≤ chartData.length - 1 := by
  have h := (newMarkers_times_sublist chartData).length_le
  simpa using h

theorem not_buy_and_sell (chartData : List Candle) (candle : Candle) (index : Nat) :
    ¬ (buySignal chartData candle index = true ∧ sellSignal chartData candle index = true) := by
  unfold buySignal sellSignal
  cases chartData[index - 1]? with
  | none => simp
  | some prev =>
    simp only [Bool.and_eq_true, decide_eq_true_eq]
    rintro ⟨⟨_, h1⟩, ⟨_, h2⟩⟩
    exact lt_asymm h1 h2

theorem pushed_length_le (chartData : List Candle) (candle : Candle) (index : Nat) :
    (pushed chartData candle index).length ≤ 1 := by
  have h := not_buy_and_sell chartData candle index
  unfold pushed forEachBody
  by_cases hb : buySignal chartData candle index = true <;>
    by_cases hs : sellSignal chartData candle index = true <;> simp [hb, hs]
  exact h ⟨hb, hs⟩

/-! ## Lemmas on the effects -/

theorem chartUpdateEffect_markers (s : State) (series : Series)
    (hs : s.candlestickSeries = some series) (hlen : 0 < s.chartData.length) :
    (chartUpdateEffect s).markers = newMarkers s.chartData := by
  unfold chartUpdateEffect
  rw [hs]
  simp [hlen]

theorem chartUpdateEffect_skip (s : State) (hlen : s.chartData.length = 0) :
    chartUpdateEffect s = s := by
  unfold chartUpdateEffect
  cases s.candlestickSeries <;> simp [hlen]

theorem chartUpdateEffect_chartData (s : State) :
    (chartUpdateEffect s).chartData = s.chartData := by
  unfold chartUpdateEffect
  cases s.candlestickSeries with
  | none => rfl
  | some series => by_cases h : s.chartData.length > 0 <;> simp [h]

theorem markersEffect_fields (s : State) :
    (markersEffect s).chartData = s.chartData ∧ (markersEffect s).markers = s.markers ∧
    (markersEffect s).error = s.error ∧ (markersEffect s).loading = s.loading ∧
    (markersEffect s).sockets = s.sockets ∧ (markersEffect s).fetchCleanup = s.fetchCleanup ∧
    (markersEffect s).chart = s.chart ∧ (markersEffect s).volatility = s.volatility ∧
    (markersEffect s).granularity = s.granularity := by
  unfold markersEffect
  cases s.candlestickSeries with
  | none => simp
  | some series => by_cases h : s.markers.length > 0 <;> simp [h]

theorem chartUpdateEffect_fields (s : State) :
    (chartUpdateEffect s).chartData = s.chartData ∧
    (chartUpdateEffect s).error = s.error ∧ (chartUpdateEffect s).loading = s.loading ∧
    (chartUpdateEffect s).sockets = s.sockets ∧
    (chartUpdateEffect s).fetchCleanup = s.fetchCleanup ∧
    (chartUpdateEffect s).chart = s.chart ∧ (chartUpdateEffect s).volatility = s.volatility ∧
    (chartUpdateEffect s).granularity = s.granularity := by
  unfold chartUpdateEffect
  cases s.candlestickSeries with
  | none => simp
  | some series => by_cases h : s.chartData.length > 0 <;> simp [h]

theorem commitChartData_fields (s : State) :
    (commitChartData s).chartData = s.chartData ∧
    (commitChartData s).error = s.error ∧ (commitChartData s).loading = s.loading ∧
    (commitChartData s).sockets = s.sockets ∧
    (commitChartData s).fetchCleanup = s.fetchCleanup ∧
    (commitChartData s).chart = s.chart ∧ (commitChartData s).volatility = s.volatility ∧
    (commitChartData s).granularity = s.granularity := by
  have hu := chartUpdateEffect_fields s
  have hm := markersEffect_fields (chartUpdateEffect s)
  unfold commitChartData
  split
  · obtain ⟨m1, _, m3, m4, m5, m6, m7, m8, m9⟩ := hm
    obtain ⟨u1, u2, u3, u4, u5, u6, u7, u8⟩ := hu
    exact ⟨m1.trans u1, m3.trans u2, m4.trans u3, m5.trans u4, m6.trans u5, m7.trans u6,
      m8.trans u7, m9.trans u8⟩
  · exact hu

theorem commitChartData_markers (s : State) (series : Series)
    (hs : s.candlestickSeries = some series) (hlen : 0 < s.chartData.length) :
    (commitChartData s).markers = newMarkers s.chartData := by
  unfold commitChartData
  simp only [hs, Option.isSome_some, hlen, decide_True, Bool.and_self, if_true]
  rw [(markersEffect_fields _).2.1]
  exact chartUpdateEffect_markers s series hs hlen

theorem commitChartData_skip (s : State) (hlen : s.chartData.length = 0) :
    commitChartData s = s := by
  unfold commitChartData
  simp [hlen, chartUpdateEffect_skip s hlen]

theorem onmessage_candles (s : State) (response : Response) (candles : List FeedRecord)
    (hc : response.candles = some candles) :
    onmessage s response = { s with loading := false, chartData := candles.map mapCandle } := by
  unfold onmessage
  rw [hc]

theorem onmessage_error (s : State) (response : Response) (error : FeedError)
    (hc : response.candles = none) (he : response.error = some error) :
    onmessage s response = { s with loading := false, error := some error.message } := by
  unfold onmessage
  rw [hc, he]

theorem receive_candles (s : State) (response : Response) (candles : List FeedRecord)
    (hc : response.candles = some candles) :
    receive s response
      = commitChartData { s with loading := false, chartData := candles.map mapCandle } := by
  unfold receive
  rw [onmessage_candles s response candles hc, hc]
  simp

theorem newMarkers_short (chartData : List Candle) (h : chartData.length ≤ 1) :
    newMarkers chartData = [] := by
  have hl := newMarkers_length_le chartData
  apply List.eq_nil_of_length_eq_zero
  omega

/-- Inside `forEach` the lookup `chartData[index - 1]` is in range: the `none` branch of
`buySignal` and `sellSignal` is never taken for an index of the array. -/
theorem forEach_lookup_in_range (chartData : List Candle) (index : Nat) (candle : Candle)
    (h : chartData[index]? = some candle) : ∃ prev, chartData[index - 1]? = some prev := by
  have hlt : index < chartData.length := by
    by_contra hge
    rw [List.getElem?_eq_none (not_lt.mp hge)] at h
    exact Option.noConfusion h
  exact ⟨chartData[index - 1], List.getElem?_eq_getElem (by omega)⟩

/-- A selection change that changes the selection creates exactly one socket, for the new
selection, and sets `loading`. -/
theorem selectVolatility_opens_one (s : State) (value : String) (hv : value ≠ s.volatility) :
    (selectVolatility s value).sockets.length = s.sockets.length + 1 ∧
    (selectVolatility s value).loading = true ∧
    (selectVolatility s value).volatility = value := by
  unfold selectVolatility commitSelection handleVolatilityChange runFetchEffect fetchEffect
    fetchChartData runFetchCleanup
  simp only [hv, false_and, if_false]
  cases s.fetchCleanup with
  | none => simp
  | some i => simp [closeSocket, List.length_modify]

/-- When the series exists and the markers derived from the new candle array are not
empty, the message event passes exactly these markers to `setMarkers`. -/
theorem receive_sets_markers (s : State) (series : Series) (response : Response)
    (candles : List FeedRecord) (hs : s.candlestickSeries = some series)
    (hc : response.candles = some candles)
    (hne : newMarkers (candles.map mapCandle) ≠ []) :
    lastSetMarkers (receive s response) = some (newMarkers (candles.map mapCandle)) ∧
    (receive s response).markers = newMarkers (candles.map mapCandle) := by
  have hpos : 0 < (candles.map mapCandle).length := by
    cases hcs : candles.map mapCandle with
    | nil => rw [hcs] at hne; exact absurd rfl hne
    | cons a l => simp
  have hmpos : 0 < (newMarkers (candles.map mapCandle)).length :=
    List.length_pos.mpr hne
  rw [receive_candles s response candles hc]
  have hpos2 : 0 < candles.length := by simpa using hpos
  unfold commitChartData lastSetMarkers markersEffect chartUpdateEffect
  simp [hs, hpos2, hmpos]

/-! ## The claims -/

/-- C1: for every candle array of length at least 2 (and an existing series, so that the
chart-update effect computes markers), the marker array the effect stores equals the
reference derivation of the specification: it is the concatenation over the indices in
order of what each iteration pushes; index 0 pushes nothing; an index `i > 0` pushes
exactly the Buy marker below the bar when `close[i] < close[i-1]`, exactly the Sell marker
above the bar when `close[i] > close[i-1]`, nothing when they are equal; hence an index
pushes a marker iff `close[i] ≠ close[i-1]`. -/
theorem C1_markers_match_reference (s : State) (series : Series)
    (hs : s.candlestickSeries = some series) (hlen : 2 ≤ s.chartData.length) :
    (chartUpdateEffect s).markers.map Marker.view = specMarkers s.chartData ∧
    (chartUpdateEffect s).markers
      = (List.range' 0 s.chartData.length).flatMap (pushedAt s.chartData) ∧
    (∀ candle, pushed s.chartData candle 0 = []) ∧
    (∀ i cur prev, 0 < i → s.chartData[i]? = some cur → s.chartData[i - 1]? = some prev →
      (cur.close < prev.close → pushed s.chartData cur i = [buyMarker cur]) ∧
      (cur.close > prev.close → pushed s.chartData cur i = [sellMarker cur]) ∧
      (cur.close = prev.close → pushed s.chartData cur i = []) ∧
      (pushed s.chartData cur i ≠ [] ↔ cur.close ≠ prev.close)) := by
  have hm := chartUpdateEffect_markers s series hs (by omega)
  refine ⟨?_, ?_, pushed_zero s.chartData, ?_⟩
  · rw [hm]; exact newMarkers_view s.chartData
  · rw [hm]; exact newMarkers_eq_flatMap s.chartData
  · intro i cur prev h0 _ hp
    rw [pushed_cases s.chartData cur prev i h0 hp]
    refine ⟨fun h => by simp [h], fun h => ?_, fun h => by simp [h], ?_⟩
    · have h' : ¬ cur.close < prev.close := not_lt.mpr (le_of_lt h)
      simp [h, h']
    · by_cases h1 : cur.close < prev.close
      · simp [h1, ne_of_lt h1]
      · by_cases h2 : cur.close > prev.close
        · simp [h1, h2, ne_of_gt h2]
        · have : cur.close = prev.close := le_antisymm (not_lt.mp h2) (not_lt.mp h1)
          simp [this]

/-- C1 instantiated on the state reached by a response with two candles. -/
theorem C1_markers_match_reference_witness :
    risingState.candlestickSeries = some risingSeries ∧
    2 ≤ risingState.chartData.length ∧
    (chartUpdateEffect risingState).markers.map Marker.view
      = specMarkers risingState.chartData :=
  ⟨by decide, by decide,
    (C1_markers_match_reference risingState risingSeries (by decide) (by decide)).1⟩

/-- C10: for every candle array the times of the derived markers form a sublist of the
times of the candles after the first one; one iteration pushes at most one marker, never
both a Buy and a Sell; and there are at most `length - 1` markers. -/
theorem C10_marker_times_sublist (chartData : List Candle) :
    ((newMarkers chartData).map Marker.time).Sublist (chartData.tail.map Candle.time) ∧
    (∀ acc candle index,
      (forEachBody chartData acc candle index).length ≤ acc.length + 1) ∧
    (∀ candle index,
      ¬ (buySignal chartData candle index = true ∧ sellSignal chartData candle index = true)) ∧
    (newMarkers chartData).length ≤ chartData.length - 1 := by
  refine ⟨newMarkers_times_sublist chartData, ?_, not_buy_and_sell chartData,
    newMarkers_length_le chartData⟩
  intro acc candle index
  rw [forEachBody_eq_append, List.length_append]
  have := pushed_length_le chartData candle index
  omega

/-- C2 (as amended): when the series exists and a response sets the candle array to an
array of length 1, the marker array is empty afterwards, whatever it was before; when
the array set has length 0 the chart-update effect is skipped and the marker array is
left as it was. -/
theorem C2_markers_of_short_array (s : State) (series : Series) (response : Response)
    (candles : List FeedRecord) (hs : s.candlestickSeries = some series)
    (hc : response.candles = some candles) :
    (receive s response).chartData.length = candles.length ∧
    (candles.length = 1 → (receive s response).markers = []) ∧
    (candles.length = 0 → (receive s response).markers = s.markers) := by
  rw [receive_candles s response candles hc]
  refine ⟨?_, ?_, ?_⟩
  · rw [(commitChartData_fields _).1]
    simp
  · intro h1
    have key : ∀ t : State, t.candlestickSeries = some series → t.chartData.length = 1 →
        (commitChartData t).markers = [] := by
      intro t ht hl
      rw [commitChartData_markers t series ht (by omega)]
      exact newMarkers_short _ (by omega)
    exact key _ hs (by simp [h1])
  · intro h0
    rw [commitChartData_skip _ (by simp [h0])]

/-- C2 instantiated: after the two-candle array, a single candle empties the marker array
and an empty array leaves it. -/
theorem C2_markers_of_short_array_witness :
    risingState.candlestickSeries = some risingSeries ∧
    singleResponse.candles = some [sampleRecord 180 5] ∧
    (receive risingState singleResponse).markers = [] :=
  ⟨by decide, rfl,
    (C2_markers_of_short_array risingState risingSeries singleResponse [sampleRecord 180 5]
      (by decide) rfl).2.1 rfl⟩

/-- C2 as stated fails: after a response with two candles produced a marker, a response
with an empty candle array leaves a candle array of length 0 and a non-empty marker
array. -/
theorem C2_counterexample :
    (run [Event.socketOpen 0, Event.socketMessage 0 risingResponse,
          Event.socketMessage 0 emptyResponse]).chartData.length = 0 ∧
    (run [Event.socketOpen 0, Event.socketMessage 0 risingResponse,
          Event.socketMessage 0 emptyResponse]).markers
      = [{ time := 120, position := "aboveBar", color := "red", shape := "arrowDown",
           text := "Sell" }] := by
  decide

/-- C3 (as amended): for every response that contains an `error` field and no `candles`
field, the message event sets the error state to exactly `response.error.message`, ends
loading, and leaves the candle array, the series and the marker array unchanged; the
error message is what is rendered when it is not the empty string. -/
theorem C3_error_response (s : State) (response : Response) (error : FeedError)
    (hc : response.candles = none) (he : response.error = some error) :
    (receive s response).error = some error.message ∧
    (receive s response).chartData = s.chartData ∧
    (receive s response).candlestickSeries = s.candlestickSeries ∧
    (receive s response).markers = s.markers ∧
    (error.message ≠ "" → render (receive s response) = View.error error.message) := by
  unfold receive
  rw [hc, onmessage_error s response error hc he]
  refine ⟨rfl, rfl, rfl, rfl, ?_⟩
  intro hne
  simp [render, hne]

/-- C3 instantiated on the mounted component and an error-only response. -/
theorem C3_error_response_witness :
    errorResponse.candles = none ∧
    errorResponse.error = some { message := "InvalidSymbol" } ∧
    (receive mount errorResponse).error = some "InvalidSymbol" ∧
    (receive mount errorResponse).chartData = mount.chartData :=
  ⟨rfl, rfl,
    (C3_error_response mount errorResponse { message := "InvalidSymbol" } rfl rfl).1,
    (C3_error_response mount errorResponse { message := "InvalidSymbol" } rfl rfl).2.1⟩

/-- C3 as stated fails: a response that carries both `candles` and `error` takes the
`candles` branch; the error state stays `null` and the candle array is replaced. -/
theorem C3_counterexample :
    mixedResponse.error = some { message := "InvalidSymbol" } ∧
    (receive mount mixedResponse).error = none ∧
    mount.chartData = [] ∧
    (receive mount mixedResponse).chartData
      = [{ time := 60, open_ := 1, high := 1, low := 1, close := 1 }] := by
  decide

/-- C4: for every response whose `candles` field is a list of `n` records, the message
event replaces the candle array by a list of exactly `n` candles, the `i`-th of which has
`time = ⌊epoch⌋` of the `i`-th record and its open, high, low and close unchanged. -/
theorem C4_candles_mapped (s : State) (response : Response) (candles : List FeedRecord)
    (hc : response.candles = some candles) :
    (receive s response).chartData.length = candles.length ∧
    (∀ (i : Nat) (record : FeedRecord), candles[i]? = some record →
      (receive s response).chartData[i]?
        = some ({ time := ⌊record.epoch⌋, open_ := record.open_, high := record.high,
                  low := record.low, close := record.close } : Candle)) := by
  rw [receive_candles s response candles hc, (commitChartData_fields _).1]
  refine ⟨by simp, ?_⟩
  intro i record hi
  simp only [List.getElem?_map, hi, Option.map_some']
  rfl

/-- C4 instantiated on a response with one hundred records. -/
theorem C4_candles_mapped_witness :
    hundredResponse.candles
      = some ((List.range 100).map (fun i => sampleRecord (60 * i) i)) ∧
    (receive mount hundredResponse).chartData.length
      = ((List.range 100).map (fun i => sampleRecord (60 * (i : ℚ)) i)).length ∧
    risingResponse.candles = some [sampleRecord 60 1, sampleRecord (mkRat 241 2) 2] ∧
    (receive mount risingResponse).chartData[1]?
      = some ({ time := ⌊(sampleRecord (mkRat 241 2) 2).epoch⌋, open_ := 2, high := 2,
                low := 2, close := 2 } : Candle) :=
  ⟨rfl, (C4_candles_mapped mount hundredResponse _ rfl).1, rfl,
    (C4_candles_mapped mount risingResponse _ rfl).2 1 (sampleRecord (mkRat 241 2) 2) rfl⟩

/-! ## Invariants of the reachable states -/

theorem inv_mount : Inv mount := by
  refine ⟨by decide, by decide, by decide, ?_⟩
  decide

theorem chartUpdateEffect_series (s : State) (h : s.candlestickSeries.isSome = true) :
    (chartUpdateEffect s).candlestickSeries.isSome = true := by
  unfold chartUpdateEffect
  cases hs : s.candlestickSeries with
  | none => simp [hs] at h
  | some series => by_cases hl : s.chartData.length > 0 <;> simp [hl, hs]

theorem markersEffect_series (s : State) (h : s.candlestickSeries.isSome = true) :
    (markersEffect s).candlestickSeries.isSome = true := by
  unfold markersEffect
  cases hs : s.candlestickSeries with
  | none => simp [hs] at h
  | some series => by_cases hl : s.markers.length > 0 <;> simp [hl, hs]

theorem commitChartData_series (s : State) (h : s.candlestickSeries.isSome = true) :
    (commitChartData s).candlestickSeries.isSome = true := by
  unfold commitChartData
  split
  · exact markersEffect_series _ (chartUpdateEffect_series s h)
  · exact chartUpdateEffect_series s h

theorem inv_commitChartData (s : State) (h : Inv s) : Inv (commitChartData s) := by
  obtain ⟨h1, h2, h3, h4⟩ := h
  obtain ⟨_, _, _, f4, f5, f6, _, _⟩ := commitChartData_fields s
  exact ⟨by rw [f6]; exact h1, commitChartData_series s h2, by rw [f5]; exact h3,
    by rw [f4]; exact h4⟩

theorem inv_receive (s : State) (response : Response) (h : Inv s) :
    Inv (receive s response) := by
  have ho : Inv (onmessage s response) := by
    obtain ⟨h1, h2, h3, h4⟩ := h
    unfold onmessage
    cases response.candles with
    | some candles => exact ⟨h1, h2, h3, h4⟩
    | none =>
      cases response.error with
      | some error => exact ⟨h1, h2, h3, h4⟩
      | none => exact ⟨h1, h2, h3, h4⟩
  unfold receive
  split
  · exact inv_commitChartData _ ho
  · exact ho

theorem inv_runFetchEffect (s : State) (h : Inv s) : Inv (runFetchEffect s) := by
  obtain ⟨h1, h2, h3, h4⟩ := h
  unfold runFetchEffect fetchEffect fetchChartData runFetchCleanup
  rw [h3]
  refine ⟨h1, h2, rfl, ?_⟩
  intro k hk
  simp only [List.mem_append, List.mem_singleton] at hk
  rcases hk with hk | hk
  · exact h4 k hk
  · rw [hk]

theorem inv_onopen (s : State) (i : Nat) (h : Inv s) : Inv (onopen s i) := by
  obtain ⟨h1, h2, h3, h4⟩ := h
  refine ⟨h1, h2, h3, ?_⟩
  intro k hk
  simp only [onopen] at hk
  obtain ⟨n, hn⟩ := List.getElem?_of_mem hk
  rw [List.getElem?_modify] at hn
  cases hg : s.sockets[n]? with
  | none => simp [hg] at hn
  | some k0 =>
    have hk0 := h4 k0 (List.getElem?_mem hg)
    rw [hg] at hn
    simp only [Option.map_eq_map, Option.map_some', Option.some.injEq] at hn
    rw [← hn]
    split <;> simpa using hk0

theorem inv_step (s : State) (e : Event) (h : Inv s) : Inv (step s e) := by
  cases e with
  | socketOpen i =>
    simp only [step]
    split
    · exact inv_onopen s i h
    · exact h
  | socketMessage i response =>
    simp only [step]
    split
    · exact inv_receive s response h
    · exact h
  | socketError i message =>
    simp only [step]
    split
    · exact ⟨h.1, h.2.1, h.2.2.1, h.2.2.2⟩
    · exact h
  | changeVolatility value =>
    simp only [step]
    split
    · unfold selectVolatility commitSelection
      split
      · exact ⟨h.1, h.2.1, h.2.2.1, h.2.2.2⟩
      · exact inv_runFetchEffect _ ⟨h.1, h.2.1, h.2.2.1, h.2.2.2⟩
    · exact h
  | changeGranularity value =>
    simp only [step]
    split
    · unfold selectGranularity commitSelection
      split
      · exact ⟨h.1, h.2.1, h.2.2.1, h.2.2.2⟩
      · exact inv_runFetchEffect _ ⟨h.1, h.2.1, h.2.2.1, h.2.2.2⟩
    · exact h
  | resize innerWidth =>
    obtain ⟨h1, h2, h3, h4⟩ := h
    simp only [step, handleResize]
    cases hc : s.chart with
    | none => simp [hc] at h1
    | some chart => exact ⟨rfl, h2, h3, h4⟩

theorem inv_foldl (events : List Event) (s : State) (h : Inv s) :
    Inv (events.foldl step s) := by
  induction events generalizing s with
  | nil => exact h
  | cons e events ih => exact ih (step s e) (inv_step s e h)

/-- Every state reached from `mount` satisfies the invariant. -/
theorem inv_run (events : List Event) : Inv (run events) :=
  inv_foldl events mount inv_mount

/-- In every reachable state all sockets created so far are still open. -/
theorem run_never_closes (events : List Event) :
    openConnections (run events) = (run events).sockets.length := by
  have h := (inv_run events).2.2.2
  unfold openConnections
  congr 1
  apply List.filter_eq_self.mpr
  intro k hk
  simp [h k hk]

/-! ## Claims on the connection, the error state, the request and the resize -/

/-- C5 (the code at the failing input): after mounting, a response and one change of the
instrument, two sockets exist and `close()` was called on neither: the socket of the
previous selection is still open, React holds no cleanup for the fetch effect, and
unmounting closes nothing either. -/
theorem C5_previous_connection_stays_open :
    render (run [Event.socketOpen 0, Event.socketMessage 0 risingResponse]) = View.chart ∧
    (run selectionTrace).volatility = "R_75" ∧
    (run selectionTrace).sockets.length = 2 ∧
    openConnections (run selectionTrace) = 2 ∧
    isOpen (run selectionTrace) 0 = true ∧
    (run selectionTrace).fetchCleanup = none ∧
    openConnections (unmount (run selectionTrace)) = 2 := by
  decide

/-- A non-empty error is rendered as the error view once loading has ended. -/
theorem render_error_view (s : State) (message : String) (herr : s.error = some message)
    (hne : message ≠ "") (hl : s.loading = false) : render s = View.error message := by
  unfold render
  simp [herr, hne, hl]

/-- While a non-empty error is set the chart view, with its dropdowns, is not rendered. -/
theorem render_ne_chart (s : State) (message : String) (herr : s.error = some message)
    (hne : message ≠ "") : render s ≠ View.chart := by
  unfold render
  by_cases hl : s.loading = true <;> simp [herr, hne, hl]

/-- A response that carries candles ends loading, replaces the candle array and leaves the
error state as it was. -/
theorem receive_candles_keeps_error (s : State) (response : Response)
    (candles : List FeedRecord) (hc : response.candles = some candles) :
    (receive s response).loading = false ∧ (receive s response).error = s.error ∧
    (receive s response).chartData = candles.map mapCandle := by
  rw [receive_candles s response candles hc]
  obtain ⟨f1, f2, f3, _⟩ := commitChartData_fields
    { s with loading := false, chartData := candles.map mapCandle }
  exact ⟨f3, f2, f1⟩

theorem errorInv_step (s : State) (e : Event) (h : ErrorInv s) : ErrorInv (step s e) := by
  have hsel : ∀ t : State, t.loading = s.loading → t.error = s.error →
      render s = View.chart → ErrorInv (runFetchEffect t) := by
    intro t _ hte hr message herr hne
    have herr2 : s.error = some message := by
      rw [← hte]
      unfold runFetchEffect fetchEffect fetchChartData runFetchCleanup at herr
      cases hf : t.fetchCleanup <;> simpa [hf, closeSocket] using herr
    exact absurd hr (render_ne_chart s message herr2 hne)
  cases e with
  | socketOpen i =>
    simp only [step]
    split
    · exact h
    · exact h
  | socketMessage i response =>
    simp only [step]
    split
    · intro message _ _
      cases hc : response.candles with
      | some candles => exact (receive_candles_keeps_error s response candles hc).1
      | none =>
        unfold receive onmessage
        rw [hc]
        cases response.error <;> rfl
    · exact h
  | socketError i message =>
    simp only [step]
    split
    · intro _ _ _
      rfl
    · exact h
  | changeVolatility value =>
    simp only [step]
    split
    · next hr =>
      unfold selectVolatility commitSelection
      split
      · exact h
      · exact hsel _ rfl rfl hr
    · exact h
  | changeGranularity value =>
    simp only [step]
    split
    · next hr =>
      unfold selectGranularity commitSelection
      split
      · exact h
      · exact hsel _ rfl rfl hr
    · exact h
  | resize innerWidth =>
    simp only [step, handleResize]
    cases s.chart with
    | none => exact h
    | some chart => exact h

theorem errorInv_foldl (events : List Event) (s : State) (h : ErrorInv s) :
    ErrorInv (events.foldl step s) := by
  induction events generalizing s with
  | nil => exact h
  | cons e events ih => exact ih (step s e) (errorInv_step s e h)

/-- In every state reached from `mount`, a non-empty error comes with `loading = false`. -/
theorem errorInv_run (events : List Event) : ErrorInv (run events) := by
  apply errorInv_foldl events mount
  intro message herr _
  have hm : mount.error = none := by decide
  rw [hm] at herr
  exact Option.noConfusion herr

/-- C6 (as amended): an error state is not left by a selection change.  In every state
reached from mounting in which a non-empty error is set, loading is false and the error
message is rendered, without the dropdowns, so that no selection change can occur there:
a selection event leaves the state as it is and loading is not re-entered.  A following
response that carries candles replaces the candle array but leaves the error set: the
error message, not the chart, stays rendered. -/
theorem C6_error_terminal (events : List Event) (message : String)
    (herr : (run events).error = some message) (hne : message ≠ "") :
    render (run events) = View.error message ∧
    dropdownsRendered (run events) = false ∧
    (∀ value, step (run events) (Event.changeVolatility value) = run events) ∧
    (∀ seconds, step (run events) (Event.changeGranularity seconds) = run events) ∧
    (∀ i response candles, response.candles = some candles →
      render (step (run events) (Event.socketMessage i response)) = View.error message ∧
      (isOpen (run events) i = true →
        (step (run events) (Event.socketMessage i response)).chartData
          = candles.map mapCandle ∧
        (step (run events) (Event.socketMessage i response)).error = some message)) := by
  have hl : (run events).loading = false := errorInv_run events message herr hne
  have hr : render (run events) = View.error message :=
    render_error_view (run events) message herr hne hl
  have hnc : render (run events) ≠ View.chart := render_ne_chart (run events) message herr hne
  refine ⟨hr, ?_, ?_, ?_, ?_⟩
  · simp [dropdownsRendered, hnc]
  · intro value
    simp [step, hnc]
  · intro seconds
    simp [step, hnc]
  · intro i response candles hc
    obtain ⟨k1, k2, k3⟩ := receive_candles_keeps_error (run events) response candles hc
    by_cases ho : isOpen (run events) i = true
    · simp only [step, ho, if_true]
      exact ⟨render_error_view _ message (k2.trans herr) hne k1,
        fun _ => ⟨k3, k2.trans herr⟩⟩
    · refine ⟨?_, fun h => absurd h ho⟩
      simp only [step, ho]
      exact hr

/-- C6 instantiated on the trace of an error-only response: the error view is rendered,
the instrument dropdown event changes nothing, and a response with two candles leaves the
error view. -/
theorem C6_error_terminal_witness :
    (run errorTrace).error = some "InvalidSymbol" ∧ "InvalidSymbol" ≠ "" ∧
    render (run errorTrace) = View.error "InvalidSymbol" ∧
    step (run errorTrace) (Event.changeVolatility "R_75") = run errorTrace ∧
    risingResponse.candles = some [sampleRecord 60 1, sampleRecord (mkRat 241 2) 2] ∧
    render (step (run errorTrace) (Event.socketMessage 0 risingResponse))
      = View.error "InvalidSymbol" :=
  ⟨by decide, by decide,
    (C6_error_terminal errorTrace "InvalidSymbol" (by decide) (by decide)).1,
    (C6_error_terminal errorTrace "InvalidSymbol" (by decide) (by decide)).2.2.1 "R_75",
    rfl,
    ((C6_error_terminal errorTrace "InvalidSymbol" (by decide) (by decide)).2.2.2.2
      0 risingResponse _ rfl).1⟩

/-- C6 as stated fails: after mounting, the opening of the socket and an error response,
the error is set and the error view is rendered, in which no dropdown exists, so the
selection change that would leave the error state is not available; and the response with
two candles that follows on the open socket replaces the candle array but does not bring
the ready state: the error message is still rendered, not the chart. -/
theorem C6_counterexample :
    (run errorTrace).error = some "InvalidSymbol" ∧
    render (run errorTrace) = View.error "InvalidSymbol" ∧
    dropdownsRendered (run errorTrace) = false ∧
    isOpen (run errorTrace) 0 = true ∧
    (run (errorTrace ++ [Event.socketMessage 0 risingResponse])).chartData.length = 2 ∧
    (run (errorTrace ++ [Event.socketMessage 0 risingResponse])).loading = false ∧
    (run (errorTrace ++ [Event.socketMessage 0 risingResponse])).error
      = some "InvalidSymbol" ∧
    render (run (errorTrace ++ [Event.socketMessage 0 risingResponse]))
      = View.error "InvalidSymbol" := by
  decide

/-- C7: whatever the selection of the state is, the socket the fetch effect creates has,
once it opened, sent exactly one message, with `ticks_history` the instrument and
`granularity` the timeframe of that state and the constants `style: 'candles'`,
`end: 'latest'`, `count: 100`; in particular after the two selection handlers it carries
the values selected. -/
theorem C7_request_on_open (s : State) (value : String) (seconds : Int) :
    (fetchChartData s).2 = s.sockets.length ∧
    ((onopen (runFetchEffect s) s.sockets.length).sockets[s.sockets.length]?).map Socket.sent
      = some [({ ticks_history := s.volatility, granularity := s.granularity,
                 style := "candles", end_ := "latest", count := 100 } : Request)] ∧
    ((onopen (runFetchEffect (handleGranularityChange (handleVolatilityChange s value) seconds))
        s.sockets.length).sockets[s.sockets.length]?).map Socket.sent
      = some [({ ticks_history := value, granularity := seconds,
                 style := "candles", end_ := "latest", count := 100 } : Request)] := by
  have key : ∀ t : State,
      ((onopen (runFetchEffect t) t.sockets.length).sockets[t.sockets.length]?).map Socket.sent
        = some [request t.volatility t.granularity] := by
    intro t
    have hlen : (runFetchCleanup t).sockets.length = t.sockets.length := by
      unfold runFetchCleanup
      cases t.fetchCleanup with
      | none => rfl
      | some i => simp [closeSocket, List.length_modify]
    have hvol : (runFetchCleanup t).volatility = t.volatility ∧
        (runFetchCleanup t).granularity = t.granularity := by
      unfold runFetchCleanup
      cases t.fetchCleanup <;> exact ⟨rfl, rfl⟩
    simp only [onopen, runFetchEffect, fetchEffect, fetchChartData, List.getElem?_modify]
    rw [← hlen, List.getElem?_append_right (le_refl _)]
    simp [hvol.1, hvol.2]
  exact ⟨rfl, key s, key _⟩

/-- C8: for every viewport width, a resize event received while the chart exists applies
the options `width = innerWidth, height = 500` to it (one more `applyOptions` call, nothing
else changes), and a resize event received while no chart exists changes nothing. -/
theorem C8_resize (s : State) (innerWidth : Int) :
    (∀ chart, s.chart = some chart →
      step s (Event.resize innerWidth)
        = { s with
            chart := some { chart with
              applyOptionsCalls :=
                chart.applyOptionsCalls ++ [{ width := innerWidth, height := 500 }] } }) ∧
    (s.chart = none → step s (Event.resize innerWidth) = s) := by
  constructor
  · intro chart hc
    simp only [step, handleResize, hc]
  · intro hc
    simp only [step, handleResize, hc]

/-- C8 instantiated: a resize to width 800 on the mounted component, and on the state
before mounting. -/
theorem C8_resize_witness :
    mount.chart = some { applyOptionsCalls := [], removed := false } ∧
    (step mount (Event.resize 800)).chart
      = some { applyOptionsCalls := [{ width := 800, height := 500 }], removed := false } ∧
    initialState.chart = none ∧
    step initialState (Event.resize 800) = initialState :=
  ⟨by decide,
    congrArg State.chart
      ((C8_resize mount 800).1 { applyOptionsCalls := [], removed := false } (by decide)),
    rfl, (C8_resize initialState 800).2 rfl⟩

/-- C9 (the code at the failing input): after a response with two candles put a Sell
marker on the series, a response with a single candle leaves a non-empty candle array
whose derived markers are empty, and the marker array of the component is empty, but the
last `setMarkers` call on the series still is the one with the Sell marker of the
previous array: `setMarkers` was called once in all. -/
theorem C9_stale_markers_on_series :
    (run replaceTrace).chartData
      = [{ time := 180, open_ := 5, high := 5, low := 5, close := 5 }] ∧
    newMarkers (run replaceTrace).chartData = [] ∧
    (run replaceTrace).markers = [] ∧
    lastSetMarkers (run replaceTrace)
      = some [{ time := 120, position := "aboveBar", color := "red", shape := "arrowDown",
                text := "Sell" }] ∧
    (run replaceTrace).candlestickSeries.map (fun series => series.setMarkersCalls.length)
      = some 1 ∧
    (run replaceTrace).candlestickSeries.map (fun series => series.setDataCalls.length)
      = some 2 := by
  decide

end ChartComponent
